import Mathlib

/-!
Verification of the cargo-spdx SBOM generator core: document assembly
(creation info, package and file records, checksums) and multi-format
output (key-value serializer, output-manager gating).  The Rust sources
are embedded shallowly: byte streams are `List Nat`, the filesystem is an
explicit association of paths to contents, fallible calls return `Except`,
and a `panic` is the `none` of an outer `Option`.
-/

namespace CargoSpdx

/-! ## 32-bit arithmetic helpers for the hash functions

The `sha1` and `sha2` crates used by `calculate_checksums` are external;
they are modelled here by the standard FIPS 180 algorithms over byte
lists, with machine words as `Nat` reduced mod `2^32`. -/

/-- Truncate to a 32-bit word. -/
def mask32 (n : Nat) : Nat := n % 2 ^ 32

/-- Rotate a 32-bit word left by `k` bits. -/
def rotl32 (k n : Nat) : Nat := mask32 (n <<< k) ||| (n >>> (32 - k))

/-- Rotate a 32-bit word right by `k` bits. -/
def rotr32 (k n : Nat) : Nat := (n >>> k) ||| mask32 (n <<< (32 - k))

/-- Big-endian bytes of a 32-bit word. -/
def toBytesBE32 (w : Nat) : List Nat :=
  [w >>> 24 % 256, w >>> 16 % 256, w >>> 8 % 256, w % 256]

/-- Big-endian bytes of a 64-bit word. -/
def toBytesBE64 (w : Nat) : List Nat :=
  [w >>> 56 % 256, w >>> 48 % 256, w >>> 40 % 256, w >>> 32 % 256,
   w >>> 24 % 256, w >>> 16 % 256, w >>> 8 % 256, w % 256]

/-- Group a byte list into big-endian 32-bit words. -/
def toWordsBE : List Nat → List Nat
  | a :: b :: c :: d :: rest =>
      ((((a % 256) * 256 + b % 256) * 256 + c % 256) * 256 + d % 256) :: toWordsBE rest
  | _ => []

/-- Merkle–Damgård padding shared by SHA-1 and SHA-256: append `0x80`,
zero bytes up to 56 mod 64, then the bit length as 8 big-endian bytes. -/
def padMessage (msg : List Nat) : List Nat :=
  let n := msg.length
  msg ++ 0x80 :: List.replicate ((120 - (n + 1) % 64) % 64) 0 ++ toBytesBE64 (8 * n)

/-- Split a byte list into 64-byte blocks, with fuel for structural
recursion (the fuel is the list length, always sufficient). -/
def toBlocksAux : Nat → List Nat → List (List Nat)
  | _, [] => []
  | 0, l => [l]
  | fuel + 1, a :: rest => ((a :: rest).take 64) :: toBlocksAux fuel ((a :: rest).drop 64)

/-- Split a (padded) message into 64-byte blocks. -/
def toBlocks (l : List Nat) : List (List Nat) := toBlocksAux l.length l

/-! ## SHA-1 (FIPS 180, as implemented by the `sha1` crate) -/

/-- SHA-1 working state: five 32-bit words. -/
structure Sha1Core where
  a : Nat
  b : Nat
  c : Nat
  d : Nat
  e : Nat
deriving DecidableEq

/-- One step of the SHA-1 message-schedule extension: append
`rotl1 (w[n-3] ^ w[n-8] ^ w[n-14] ^ w[n-16])`. -/
def sha1ExtendStep (ws : List Nat) : List Nat :=
  let n := ws.length
  ws ++ [rotl32 1 ((ws.getD (n - 3) 0 ^^^ ws.getD (n - 8) 0) ^^^
                   (ws.getD (n - 14) 0 ^^^ ws.getD (n - 16) 0))]

/-- The 80-word SHA-1 message schedule of one block. -/
def sha1Schedule (block : List Nat) : List Nat :=
  sha1ExtendStep^[64] (toWordsBE block)

/-- The SHA-1 round function `f` for round `i`. -/
def sha1F (i b c d : Nat) : Nat :=
  if i < 20 then (b &&& c) ||| ((2 ^ 32 - 1 - mask32 b) &&& d)
  else if i < 40 then (b ^^^ c) ^^^ d
  else if i < 60 then ((b &&& c) ||| (b &&& d)) ||| (c &&& d)
  else (b ^^^ c) ^^^ d

/-- The SHA-1 round constant for round `i`. -/
def sha1K (i : Nat) : Nat :=
  if i < 20 then 0x5A827999
  else if i < 40 then 0x6ED9EBA1
  else if i < 60 then 0x8F1BBCDC
  else 0xCA62C1D6

/-- One SHA-1 round. -/
def sha1Round (ws : List Nat) (st : Sha1Core) (i : Nat) : Sha1Core :=
  let temp := mask32 (rotl32 5 st.a + sha1F i st.b st.c st.d + st.e + sha1K i + ws.getD i 0)
  ⟨temp, st.a, rotl32 30 st.b, st.c, st.d⟩

/-- SHA-1 compression of one 64-byte block into the running state. -/
def sha1Compress (hs : Sha1Core) (block : List Nat) : Sha1Core :=
  let ws := sha1Schedule block
  let st := (List.range 80).foldl (sha1Round ws) hs
  ⟨mask32 (hs.a + st.a), mask32 (hs.b + st.b), mask32 (hs.c + st.c),
   mask32 (hs.d + st.d), mask32 (hs.e + st.e)⟩

/-- The SHA-1 initial state. -/
def sha1Init : Sha1Core :=
  ⟨0x67452301, 0xEFCDAB89, 0x98BADCFE, 0x10325476, 0xC3D2E1F0⟩

/-- SHA-1 digest of a byte list: 20 bytes. -/
def sha1Digest (msg : List Nat) : List Nat :=
  let fin := (toBlocks (padMessage msg)).foldl sha1Compress sha1Init
  toBytesBE32 fin.a ++ toBytesBE32 fin.b ++ toBytesBE32 fin.c ++
    toBytesBE32 fin.d ++ toBytesBE32 fin.e

/-! ## SHA-256 (FIPS 180, as implemented by the `sha2` crate) -/

/-- SHA-256 working state: eight 32-bit words. -/
structure Sha256Core where
  a : Nat
  b : Nat
  c : Nat
  d : Nat
  e : Nat
  f : Nat
  g : Nat
  h : Nat
deriving DecidableEq

/-- The 64 SHA-256 round constants (FIPS 180, written in decimal). -/
def sha256K : List Nat :=
  [1116352408, 1899447441, 3049323471, 3921009573, 961987163, 1508970993,
   2453635748, 2870763221, 3624381080, 310598401, 607225278, 1426881987,
   1925078388, 2162078206, 2614888103, 3248222580, 3835390401, 4022224774,
   264347078, 604807628, 770255983, 1249150122, 1555081692, 1996064986,
   2554220882, 2821834349, 2952996808, 3210313671, 3336571891, 3584528711,
   113926993, 338241895, 666307205, 773529912, 1294757372, 1396182291,
   1695183700, 1986661051, 2177026350, 2456956037, 2730485921, 2820302411,
   3259730800, 3345764771, 3516065817, 3600352804, 4094571909, 275423344,
   430227734, 506948616, 659060556, 883997877, 958139571, 1322822218,
   1537002063, 1747873779, 1955562222, 2024104815, 2227730452, 2361852424,
   2428436474, 2756734187, 3204031479, 3329325298]

/-- SHA-256 schedule sigma-0. -/
def sigma0 (x : Nat) : Nat := (rotr32 7 x ^^^ rotr32 18 x) ^^^ (x >>> 3)

/-- SHA-256 schedule sigma-1. -/
def sigma1 (x : Nat) : Nat := (rotr32 17 x ^^^ rotr32 19 x) ^^^ (x >>> 10)

/-- One step of the SHA-256 message-schedule extension. -/
def sha256ExtendStep (ws : List Nat) : List Nat :=
  let n := ws.length
  ws ++ [mask32 (ws.getD (n - 16) 0 + sigma0 (ws.getD (n - 15) 0) +
                 ws.getD (n - 7) 0 + sigma1 (ws.getD (n - 2) 0))]

/-- The 64-word SHA-256 message schedule of one block. -/
def sha256Schedule (block : List Nat) : List Nat :=
  sha256ExtendStep^[48] (toWordsBE block)

/-- SHA-256 compression big-sigma-0. -/
def bigSigma0 (x : Nat) : Nat := (rotr32 2 x ^^^ rotr32 13 x) ^^^ rotr32 22 x

/-- SHA-256 compression big-sigma-1. -/
def bigSigma1 (x : Nat) : Nat := (rotr32 6 x ^^^ rotr32 11 x) ^^^ rotr32 25 x

/-- SHA-256 choose function. -/
def sha256Ch (e f g : Nat) : Nat := (e &&& f) ^^^ ((2 ^ 32 - 1 - mask32 e) &&& g)

/-- SHA-256 majority function. -/
def sha256Maj (a b c : Nat) : Nat := ((a &&& b) ^^^ (a &&& c)) ^^^ (b &&& c)

/-- One SHA-256 round. -/
def sha256Round (ws : List Nat) (st : Sha256Core) (i : Nat) : Sha256Core :=
  let t1 := mask32 (st.h + bigSigma1 st.e + sha256Ch st.e st.f st.g +
                    sha256K.getD i 0 + ws.getD i 0)
  let t2 := mask32 (bigSigma0 st.a + sha256Maj st.a st.b st.c)
  ⟨mask32 (t1 + t2), st.a, st.b, st.c, mask32 (st.d + t1), st.e, st.f, st.g⟩

/-- SHA-256 compression of one 64-byte block into the running state. -/
def sha256Compress (hs : Sha256Core) (block : List Nat) : Sha256Core :=
  let ws := sha256Schedule block
  let st := (List.range 64).foldl (sha256Round ws) hs
  ⟨mask32 (hs.a + st.a), mask32 (hs.b + st.b), mask32 (hs.c + st.c),
   mask32 (hs.d + st.d), mask32 (hs.e + st.e), mask32 (hs.f + st.f),
   mask32 (hs.g + st.g), mask32 (hs.h + st.h)⟩

/-- The SHA-256 initial state (FIPS 180, written in decimal). -/
def sha256Init : Sha256Core :=
  ⟨1779033703, 3144134277, 1013904242, 2773480762,
   1359893119, 2600822924, 528734635, 1541459225⟩

/-- SHA-256 digest of a byte list: 32 bytes. -/
def sha256Digest (msg : List Nat) : List Nat :=
  let fin := (toBlocks (padMessage msg)).foldl sha256Compress sha256Init
  toBytesBE32 fin.a ++ toBytesBE32 fin.b ++ toBytesBE32 fin.c ++ toBytesBE32 fin.d ++
    toBytesBE32 fin.e ++ toBytesBE32 fin.f ++ toBytesBE32 fin.g ++ toBytesBE32 fin.h

/-! ## Lowercase hex encoding (the `hex` crate's `hex::encode`) -/

/-- The sixteen lowercase hex digits. -/
def hexChars : List Char := "0123456789abcdef".data

/-- The lowercase hex digit of a nibble. -/
def hexDigit (n : Nat) : Char := hexChars.getD n '0'

/-- The hex digits of a byte list, two per byte, high nibble first. -/
def hexList (bs : List Nat) : List Char :=
  bs.foldr (fun b acc => hexDigit (b / 16 % 16) :: hexDigit (b % 16) :: acc) []

/-- Lowercase hex encoding of a byte list, two digits per byte. -/
def hexEncode (bs : List Nat) : String := String.mk (hexList bs)

set_option maxRecDepth 100000

/-! ## Streaming hasher objects (`Digest` trait of the `sha1`/`sha2` crates)

A hasher accumulates the bytes fed to it; `finalize` hashes exactly what was
accumulated.  `io::copy(&mut file, &mut hasher)` is an `update` with the
file's full byte stream. -/

/-- A streaming SHA-1 hasher: the bytes fed to it so far. -/
structure Sha1Hasher where
  fed : List Nat
deriving DecidableEq

/-- `Sha1::new()`. -/
def Sha1Hasher.new : Sha1Hasher := ⟨[]⟩

/-- Feed bytes to a SHA-1 hasher. -/
def Sha1Hasher.update (h : Sha1Hasher) (bytes : List Nat) : Sha1Hasher := ⟨h.fed ++ bytes⟩

/-- `finalize`: the SHA-1 digest of everything fed so far. -/
def Sha1Hasher.finalize (h : Sha1Hasher) : List Nat := sha1Digest h.fed

/-- A streaming SHA-256 hasher: the bytes fed to it so far. -/
structure Sha256Hasher where
  fed : List Nat
deriving DecidableEq

/-- `Sha256::new()`. -/
def Sha256Hasher.new : Sha256Hasher := ⟨[]⟩

/-- Feed bytes to a SHA-256 hasher. -/
def Sha256Hasher.update (h : Sha256Hasher) (bytes : List Nat) : Sha256Hasher := ⟨h.fed ++ bytes⟩

/-- `finalize`: the SHA-256 digest of everything fed so far. -/
def Sha256Hasher.finalize (h : Sha256Hasher) : List Nat := sha256Digest h.fed

/-! ## Paths and the filesystem

`PathBuf`/`Utf8PathBuf` are modelled by their two observations used in the
sources: the display text and the optional file-name component.  The
filesystem is an explicit map from paths to byte contents plus a set of
directories. -/

/-- A filesystem path: its display text and its `file_name()` component. -/
structure RPath where
  display : String
  fileName : Option String
deriving DecidableEq

/-- The filesystem: files with their contents, and directories. -/
structure FileSystem where
  files : List (RPath × List Nat)
  dirs : List RPath
deriving DecidableEq

/-- The byte content of a file, when the path names an existing file. -/
def FileSystem.content (fs : FileSystem) (p : RPath) : Option (List Nat) :=
  (fs.files.find? (fun e => e.1 == p)).map (fun e => e.2)

/-- `Path::is_dir`. -/
def FileSystem.isDir (fs : FileSystem) (p : RPath) : Bool := fs.dirs.contains p

/-- `Path::exists`: the path names an existing file or directory. -/
def FileSystem.exists_ (fs : FileSystem) (p : RPath) : Bool :=
  (fs.content p).isSome || fs.isDir p

/-- Replace the content of the file at `p` with `bytes`. -/
def FileSystem.writeTo (fs : FileSystem) (p : RPath) (bytes : List Nat) : FileSystem :=
  ⟨(p, bytes) :: fs.files.filter (fun e => !(e.1 == p)), fs.dirs⟩

/-- `File::create`: truncate-or-create the file at `p` (leaving it empty);
fails when `p` is a directory. -/
def FileSystem.create (fs : FileSystem) (p : RPath) : Except String FileSystem :=
  if fs.isDir p then .error ("Is a directory: " ++ p.display)
  else .ok (fs.writeTo p [])

/-- The bytes of a string (one entry per character). -/
def stringToBytes (s : String) : List Nat := s.data.map Char.toNat

/-- Join written lines, each terminated by a newline as `writeln!` does. -/
def linesToString (lines : List String) : String :=
  String.join (lines.map (fun l => l ++ "\n"))

/-! ## The spdx-rs data model (external crate; plain data, no behaviour) -/

/-- Checksum algorithm tags (the variants this crate uses). -/
inductive Algorithm where
  | SHA1
  | SHA256
  | SHA512
  | MD5
deriving DecidableEq

/-- An algorithm tag together with a hex digest string. -/
structure Checksum where
  algorithm : Algorithm
  value : String
deriving DecidableEq

/-- An SPDX license expression.  The external parser is modelled as wrapping
the input; the only input this crate parses is `"NOASSERTION"`, which the real
parser accepts. -/
structure SpdxExpression where
  expression : String
deriving DecidableEq, Inhabited

/-- `SpdxExpression::parse`, modelled as succeeding on the inputs this crate
uses. -/
def SpdxExpression.parse (s : String) : Option SpdxExpression := some ⟨s⟩

/-- Creation metadata of a document. -/
structure CreationInfo where
  license_list_version : Option String
  creators : List String
  created : String
  creator_comment : Option String
deriving DecidableEq

/-- Categories of external package references. -/
inductive ExternalPackageReferenceCategory where
  | Security
  | PackageManager
  | PersistentID
  | Other
deriving DecidableEq

/-- An external reference attached to a package. -/
structure ExternalPackageReference where
  reference_category : ExternalPackageReferenceCategory
  reference_type : String
  reference_locator : String
  reference_comment : Option String
deriving DecidableEq

/-- An SPDX annotation (none are produced by this crate). -/
structure Annotation where
deriving DecidableEq

/-- A package record of the document. -/
structure PackageInformation where
  package_name : String
  package_spdx_identifier : String
  package_version : Option String
  package_file_name : Option String
  package_supplier : Option String
  package_originator : Option String
  package_download_location : String
  files_analyzed : Option Bool
  package_verification_code : Option String
  package_checksum : List Checksum
  package_home_page : Option String
  source_information : Option String
  concluded_license : SpdxExpression
  declared_license : SpdxExpression
  copyright_text : String
  package_summary_description : Option String
  package_comment : Option String
  external_reference : List ExternalPackageReference
  annotations : List Annotation
  package_attribution_text : List String
  files : List String
  comments_on_license : Option String
  all_licenses_information_from_files : List SpdxExpression
  package_detailed_description : Option String
deriving DecidableEq

/-- File type classification (the variants this crate uses). -/
inductive FileType where
  | Source
  | Binary
  | Archive
  | Other
deriving DecidableEq

/-- A file record of the document. -/
structure FileInformation where
  file_attribution_text : Option (List String)
  file_checksum : List Checksum
  file_comment : Option String
  copyright_text : String
  file_name : String
  file_type : List FileType
  comments_on_license : Option String
  concluded_license : SpdxExpression
  license_information_in_file : List SpdxExpression
  file_notice : Option String
  file_spdx_identifier : String
  file_contributor : List String
deriving DecidableEq

/-- Document-level creation information. -/
structure DocumentCreationInformation where
  spdx_version : String
  data_license : String
  spdx_identifier : String
  document_name : String
  spdx_document_namespace : String
  external_document_references : List String
  creation_info : CreationInfo
  document_comment : Option String
deriving DecidableEq

/-- The root SPDX document. -/
structure SPDX where
  document_creation_information : DocumentCreationInformation
  package_information : List PackageInformation
  other_licensing_information_detected : List String
  file_information : List FileInformation
  snippet_information : List String
  relationships : List String
  annotations : List Annotation
  spdx_ref_counter : Nat
deriving DecidableEq

/-! ## src/document/mod.rs -/

/-- The sentinel used for schema-mandatory fields with no substantiated
claim (`pub const NOASSERTION` in src/document/mod.rs). -/
def NOASSERTION : String := "NOASSERTION"

/-- The result of the local identity lookup (`git::get_current_user`, an
external collaborator per the spec; its result is passed in as data). -/
structure GitUser where
  name : String
  email : Option String
deriving DecidableEq

/-- `get_creation_info` from src/document/mod.rs.  The external identity
lookup result and the current UTC instant (as its display text) are passed
in as data. -/
def get_creation_info (user : Except String GitUser) (now : String) :
    Except String CreationInfo :=
  let creators : List String := []
  let creators :=
    match user with
    | .ok user =>
        creators ++
          ["Persion: " ++ user.name ++
            ((user.email.map (fun s => " (" ++ s ++ ")")).getD "")]
    | .error _ => creators
  let creators := creators ++ ["Tool: cargo-spdx 0.1.0"]
  .ok { license_list_version := none
        creators := creators
        created := now
        creator_comment := none }

/-- The fields of `cargo_metadata::Package` read by this crate (external
input, plain data; `version` is the display text of the semver version). -/
structure MetadataPackage where
  name : String
  version : String
  homepage : Option String
deriving DecidableEq

/-- `PackageInformation::from_metadata_package` from src/document/mod.rs. -/
def PackageInformation.from_metadata_package (package : MetadataPackage) :
    PackageInformation :=
  { package_name := package.name
    package_spdx_identifier := "SPDXRef-" ++ package.name ++ "-" ++ package.version
    package_version := some package.version
    package_file_name := none
    package_supplier := none
    package_originator := none
    package_download_location := NOASSERTION
    files_analyzed := none
    package_verification_code := none
    package_checksum := []
    package_home_page := package.homepage
    source_information := none
    concluded_license := (SpdxExpression.parse "NOASSERTION").getD default
    declared_license := (SpdxExpression.parse "NOASSERTION").getD default
    copyright_text := NOASSERTION
    package_summary_description := none
    package_comment := none
    external_reference :=
      [{ reference_category := ExternalPackageReferenceCategory.PackageManager
         reference_type := "purl"
         reference_locator := "pkg:cargo/" ++ package.name ++ "@" ++ package.version
         reference_comment := none }]
    annotations := []
    package_attribution_text := []
    files := []
    comments_on_license := none
    all_licenses_information_from_files := []
    package_detailed_description := none }

/-- `calculate_checksums` from src/document/mod.rs, with the filesystem made
explicit.  `io::copy(&mut file, &mut sha256)` feeds the file's bytes to the
SHA-256 hasher only; the SHA-1 hasher is finalized as created. -/
def calculate_checksums (path : RPath) (fs : FileSystem) :
    Except String (List Checksum) :=
  match fs.content path with
  | none => .error ("Failed to open " ++ path.display)
  | some bytes =>
    let sha256 := Sha256Hasher.new
    let sha1 := Sha1Hasher.new
    let sha256 := sha256.update bytes
    let sha256_hash := sha256.finalize
    let sha1_hash := sha1.finalize
    .ok [{ algorithm := Algorithm.SHA1, value := hexEncode sha1_hash },
         { algorithm := Algorithm.SHA256, value := hexEncode sha256_hash }]

/-- `FileInformation::try_from_binary` from src/document/mod.rs.  The outer
`Option` models panics: `none` is the panic of `path.file_name().unwrap()`
when the path has no file-name component. -/
def FileInformation.try_from_binary (path : RPath) (fs : FileSystem) :
    Option (Except String FileInformation) :=
  match path.fileName with
  | none => none
  | some file_name =>
    let spdxid := "SPDXRef-File-" ++ file_name
    some <|
      match calculate_checksums path fs with
      | .error e => .error e
      | .ok cs =>
        .ok { file_attribution_text := none
              file_checksum := cs
              file_comment := none
              copyright_text := NOASSERTION
              file_name := file_name
              file_type := [FileType.Binary]
              comments_on_license := none
              concluded_license := (SpdxExpression.parse "NOASSERTION").getD default
              license_information_in_file := []
              file_notice := none
              file_spdx_identifier := spdxid
              file_contributor := [] }

/-! ## src/format/key_value.rs -/

/-- `writeln!` into a line buffer: append one line. -/
def writelnTo (w : List String) (s : String) : List String := w ++ [s]

/-- `format::key_value::write` from src/format/key_value.rs: the sequence of
`write_field!` calls, starting from the writer's existing lines `w`. -/
def key_value.write (w : List String) (doc : SPDX) : List String :=
  let w := writelnTo w ("SPDXVersion: " ++ doc.document_creation_information.spdx_version)
  let w := writelnTo w ("DataLicense: " ++ doc.document_creation_information.data_license)
  let w := writelnTo w ("SPDXID: " ++ doc.document_creation_information.spdx_identifier)
  let w := writelnTo w ("DocumentName: " ++ doc.document_creation_information.document_name)
  let w := writelnTo w
    ("DocumentNamespace: " ++ doc.document_creation_information.spdx_document_namespace)
  let w :=
    match doc.document_creation_information.creation_info.license_list_version with
    | some field => writelnTo w ("LicenseListVersion: " ++ field)
    | none => w
  let w := doc.document_creation_information.creation_info.creators.foldl
    (fun w item => writelnTo w ("Creator: " ++ item)) w
  let w := writelnTo w ("Created: " ++ doc.document_creation_information.creation_info.created)
  let w :=
    match doc.document_creation_information.creation_info.creator_comment with
    | some field => writelnTo w ("CreatorComment: " ++ field)
    | none => w
  let w :=
    match doc.document_creation_information.document_comment with
    | some field => writelnTo w ("DocumentComment: " ++ field)
    | none => w
  w

/-! ## src/output.rs -/

/-- The output formats (`Format` lives in src/format/mod.rs, not under src/).
Modelled from the spec: four formats — flat key-value, two generic structured
formats, and the unimplemented graph format. -/
inductive Format where
  | KeyValue
  | Json
  | Yaml
  | Rdf
deriving DecidableEq

/-- Modelled from the spec: the display name of a format, as interpolated
into the graph-format error (`src/format/mod.rs` is not under src/; the
spec's table names the formats by their extensions). -/
def Format.display : Format → String
  | .KeyValue => "key-value"
  | .Json => "json"
  | .Yaml => "yaml"
  | .Rdf => "rdf"

/-- `OutputManager` from src/output.rs. -/
structure OutputManager where
  to_ : RPath
  format : Format
  force : Bool
deriving DecidableEq

/-- `OutputManager::new`. -/
def OutputManager.new (path : RPath) (force : Bool) (format : Format) : OutputManager :=
  { to_ := path, format := format, force := force }

/-- `OutputManager::get_writer` from src/output.rs: error when not forcing
and the destination exists; otherwise `File::create` (create-or-truncate),
returning the filesystem with the writer's file in place. -/
def OutputManager.get_writer (self : OutputManager) (fs : FileSystem) :
    Except String FileSystem :=
  if !self.force && fs.exists_ self.to_ then
    .error ("output file already exists: " ++ self.to_.display)
  else
    fs.create self.to_

/-- `OutputManager::write_document` from src/output.rs.  The external
serde encoders for the two generic structured formats are passed in as
functions.  Returns the call's result together with the filesystem after the
call. -/
def OutputManager.write_document (self : OutputManager) (jsonEnc yamlEnc : SPDX → String)
    (doc : SPDX) (fs : FileSystem) : Except String Unit × FileSystem :=
  if (self.to_.fileName).isNone then (.error "missing output file name", fs)
  else if fs.isDir self.to_ then (.error "output can't be a directory", fs)
  else
    match self.get_writer fs with
    | .error e => (.error e, fs)
    | .ok fs1 =>
      match self.format with
      | .KeyValue =>
          (.ok (), fs1.writeTo self.to_ (stringToBytes (linesToString (key_value.write [] doc))))
      | .Json => (.ok (), fs1.writeTo self.to_ (stringToBytes (jsonEnc doc)))
      | .Yaml => (.ok (), fs1.writeTo self.to_ (stringToBytes (yamlEnc doc)))
      | .Rdf => (.error (Format.display self.format ++ " format not yet implemented"), fs1)

/-! ## Spec-side description of the key-value output

`kvLinesSpec` follows the spec's words for the flat serializer — the fixed
field order, optional fields only when present, one `Creator` line per
creator in list order — to be compared with the embedded `key_value.write`. -/

/-- The keys the flat serializer may emit, in schema order. -/
def kvKeys : List String :=
  ["SPDXVersion", "DataLicense", "SPDXID", "DocumentName", "DocumentNamespace",
   "LicenseListVersion", "Creator", "Created", "CreatorComment", "DocumentComment"]

/-- The lines the spec says the flat serializer emits, in order. -/
def kvLinesSpec (doc : SPDX) : List String :=
  let dci := doc.document_creation_information
  ["SPDXVersion: " ++ dci.spdx_version,
   "DataLicense: " ++ dci.data_license,
   "SPDXID: " ++ dci.spdx_identifier,
   "DocumentName: " ++ dci.document_name,
   "DocumentNamespace: " ++ dci.spdx_document_namespace] ++
  (dci.creation_info.license_list_version.map (fun v => "LicenseListVersion: " ++ v)).toList ++
  dci.creation_info.creators.map (fun c => "Creator: " ++ c) ++
  ["Created: " ++ dci.creation_info.created] ++
  (dci.creation_info.creator_comment.map (fun v => "CreatorComment: " ++ v)).toList ++
  (dci.document_comment.map (fun v => "DocumentComment: " ++ v)).toList

/-! ## Concrete sample inputs used by counterexamples and witnesses -/

/-- A one-byte file path. -/
def samplePath : RPath := ⟨"a.bin", some "a.bin"⟩

/-- A filesystem holding the one-byte file `a.bin` with content `"a"`. -/
def sampleFs : FileSystem := ⟨[(samplePath, [0x61])], []⟩

/-- The empty filesystem. -/
def emptyFs : FileSystem := ⟨[], []⟩

/-- A destination path for the graph format. -/
def rdfPath : RPath := ⟨"out.rdf", some "out.rdf"⟩

/-- A sample creation-info record. -/
def sampleCreationInfo : CreationInfo :=
  { license_list_version := none
    creators := ["Tool: cargo-spdx 0.1.0"]
    created := "2022-01-01T00:00:00Z"
    creator_comment := none }

/-- A sample document-creation-information record. -/
def sampleDCI : DocumentCreationInformation :=
  { spdx_version := "SPDX-2.2"
    data_license := "CC0-1.0"
    spdx_identifier := "SPDXRef-DOCUMENT"
    document_name := "app.spdx"
    spdx_document_namespace := "https://spdx.org/spdxdocs/app"
    external_document_references := []
    creation_info := sampleCreationInfo
    document_comment := none }

/-- A sample document with no packages and no files. -/
def sampleDoc : SPDX :=
  { document_creation_information := sampleDCI
    package_information := []
    other_licensing_information_detected := []
    file_information := []
    snippet_information := []
    relationships := []
    annotations := []
    spdx_ref_counter := 0 }

/-- A sample package metadata record. -/
def samplePackage : MetadataPackage := ⟨"foo", "1.0.0", none⟩

/-- A path with no file-name component (it ends in `..`). -/
def noNamePath : RPath := ⟨"..", none⟩

/-- A path naming a directory. -/
def dirPath : RPath := ⟨"outdir", some "outdir"⟩

/-- A filesystem in which `outdir` is an existing directory. -/
def dirFs : FileSystem := ⟨[], [dirPath]⟩

/-! ## Helper lemmas -/

/-- Every hex digit is one of the sixteen lowercase hex characters. -/
theorem hexDigit_mem (n : Nat) : hexDigit n ∈ hexChars := by
  by_cases h : n < 16
  · interval_cases n <;> decide
  · unfold hexDigit
    rw [List.getD_eq_default]
    · decide
    · simp only [hexChars, List.length]
      omega

/-- The hex digit list of a byte list has two characters per byte. -/
theorem hexList_length (bs : List Nat) : (hexList bs).length = 2 * bs.length := by
  induction bs with
  | nil => rfl
  | cons b bs ih => simp [hexList] at ih ⊢; omega

/-- Every character of the hex digit list is a lowercase hex character. -/
theorem hexList_mem (bs : List Nat) : ∀ c ∈ hexList bs, c ∈ hexChars := by
  induction bs with
  | nil => intro c hc; cases hc
  | cons b bs ih =>
      intro c hc
      rcases hc with _ | ⟨_, hc⟩
      · exact hexDigit_mem _
      · rcases hc with _ | ⟨_, hc⟩
        · exact hexDigit_mem _
        · exact ih c hc

/-- The hex encoding of a byte list has two characters per byte. -/
theorem hexEncode_length (bs : List Nat) : (hexEncode bs).length = 2 * bs.length :=
  hexList_length bs

/-- Every character of a hex encoding is a lowercase hex character. -/
theorem hexEncode_mem (bs : List Nat) : ∀ c ∈ (hexEncode bs).data, c ∈ hexChars :=
  hexList_mem bs

/-- A SHA-1 digest is 20 bytes. -/
theorem sha1Digest_length (msg : List Nat) : (sha1Digest msg).length = 20 := by
  simp [sha1Digest, toBytesBE32]

/-- A SHA-256 digest is 32 bytes. -/
theorem sha256Digest_length (msg : List Nat) : (sha256Digest msg).length = 32 := by
  simp [sha256Digest, toBytesBE32]

/-- `sha1Digest` matches the FIPS 180 test vector for the empty message. -/
theorem sha1_empty_vector :
    hexEncode (sha1Digest []) = "da39a3ee5e6b4b0d3255bfef95601890afd80709" := by decide

/-- `sha1Digest` matches the known SHA-1 of the one-byte message `"a"`. -/
theorem sha1_a_vector :
    hexEncode (sha1Digest [0x61]) = "86f7e437faa5a7fce15d1ddcb9eaeaea377667b8" := by decide

/-- `sha256Digest` matches the known SHA-256 of the one-byte message `"a"`. -/
theorem sha256_a_vector :
    hexEncode (sha256Digest [0x61]) =
      "ca978112ca1bbdcafac231b39a23dc4da786eff8147c4e72b9807785afee48bb" := by decide

/-- Folding `writeln` of a prefixed line over a list appends one line per
item, in list order. -/
theorem foldl_writelnTo (pre : String) (l : List String) (w : List String) :
    l.foldl (fun acc item => writelnTo acc (pre ++ item)) w =
      w ++ l.map (fun item => pre ++ item) := by
  induction l generalizing w with
  | nil => simp
  | cons x xs ih =>
      rw [List.foldl_cons, ih]
      simp [writelnTo]

/-- After `writeTo`, the file at `p` holds exactly the written bytes. -/
theorem content_writeTo (fs : FileSystem) (p : RPath) (bytes : List Nat) :
    (fs.writeTo p bytes).content p = some bytes := by
  simp [FileSystem.writeTo, FileSystem.content, List.find?]

/-- The embedded serializer emits exactly the lines the spec describes. -/
theorem kv_write_eq_spec (doc : SPDX) : key_value.write [] doc = kvLinesSpec doc := by
  simp only [key_value.write, kvLinesSpec]
  rw [foldl_writelnTo]
  cases doc.document_creation_information.creation_info.license_list_version <;>
    cases doc.document_creation_information.creation_info.creator_comment <;>
      cases doc.document_creation_information.document_comment <;>
        simp [writelnTo]

/-- A member of the list view of a mapped option is the image of its value. -/
theorem mem_toList_map (f : String → String) (o : Option String) (x : String)
    (hx : x ∈ (o.map f).toList) : ∃ v, x = f v := by
  cases o with
  | none => simp at hx
  | some v =>
      simp at hx
      exact ⟨v, hx⟩

/-- Every line the spec-side description produces is of the form
`Key ++ ": " ++ Value` for one of the schema keys. -/
theorem kvLinesSpec_mem (doc : SPDX) :
    ∀ line ∈ kvLinesSpec doc, ∃ k v, k ∈ kvKeys ∧ line = k ++ ": " ++ v := by
  intro line hline
  unfold kvLinesSpec at hline
  rcases List.mem_append.1 hline with h5 | hF
  · rcases List.mem_append.1 h5 with h4 | hE
    · rcases List.mem_append.1 h4 with h3 | hD
      · rcases List.mem_append.1 h3 with h2 | hC
        · rcases List.mem_append.1 h2 with hA | hB
          · simp only [List.mem_cons, List.not_mem_nil, or_false] at hA
            rcases hA with h | h | h | h | h <;> subst h
            · exact ⟨"SPDXVersion", _, by decide, by congr 1⟩
            · exact ⟨"DataLicense", _, by decide, by congr 1⟩
            · exact ⟨"SPDXID", _, by decide, by congr 1⟩
            · exact ⟨"DocumentName", _, by decide, by congr 1⟩
            · exact ⟨"DocumentNamespace", _, by decide, by congr 1⟩
          · obtain ⟨v, hv⟩ := mem_toList_map _ _ _ hB
            subst hv
            exact ⟨"LicenseListVersion", v, by decide, by congr 1⟩
        · obtain ⟨c, _, hc⟩ := List.mem_map.1 hC
          subst hc
          exact ⟨"Creator", c, by decide, by congr 1⟩
      · simp only [List.mem_cons, List.not_mem_nil, or_false] at hD
        subst hD
        exact ⟨"Created", _, by decide, by congr 1⟩
    · obtain ⟨v, hv⟩ := mem_toList_map _ _ _ hE
      subst hv
      exact ⟨"CreatorComment", v, by decide, by congr 1⟩
  · obtain ⟨v, hv⟩ := mem_toList_map _ _ _ hF
    subst hv
    exact ⟨"DocumentComment", v, by decide, by congr 1⟩

/-! ## The claims -/

/-- Claim C1 fails on the code: at the one-byte file `a.bin` with content
`"a"`, the legacy (SHA1) record's digest is the SHA-1 of the *empty* stream,
not of the file's bytes — `calculate_checksums` opens the file and feeds it
to the SHA-256 hasher only, finalizing the SHA-1 hasher untouched. -/
theorem C1_sha1_digest_of_empty_stream :
    calculate_checksums samplePath sampleFs =
      .ok [{ algorithm := Algorithm.SHA1, value := hexEncode (sha1Digest []) },
           { algorithm := Algorithm.SHA256, value := hexEncode (sha256Digest [0x61]) }] ∧
    hexEncode (sha1Digest []) ≠ hexEncode (sha1Digest [0x61]) :=
  ⟨rfl, by rw [sha1_empty_vector, sha1_a_vector]; decide⟩

/-- Claim C2 fails on the code: building creation info for identity
`("Jane Doe", Some "jane@x.io")` yields the misspelled person creator
`"Persion: Jane Doe (jane@x.io)"` — not `"Person: ..."` — followed by the
tool creator. -/
theorem C2_persion_typo (now : String) :
    (get_creation_info (.ok { name := "Jane Doe", email := some "jane@x.io" }) now).map
        CreationInfo.creators =
      .ok ["Persion: Jane Doe (jane@x.io)", "Tool: cargo-spdx 0.1.0"] ∧
    ("Persion: Jane Doe (jane@x.io)" : String) ≠ "Person: Jane Doe (jane@x.io)" :=
  ⟨rfl, by decide⟩

/-- Claim C3, as stated, is false: requesting the graph format on a fresh
destination returns the "not yet implemented" error, but only after the
writer has been acquired — the destination file *is* created. -/
theorem C3_counterexample :
    ((OutputManager.new rdfPath false Format.Rdf).write_document (fun _ => "") (fun _ => "")
        sampleDoc emptyFs).1 = .error "rdf format not yet implemented" ∧
    emptyFs.exists_ rdfPath = false ∧
    ((OutputManager.new rdfPath false Format.Rdf).write_document (fun _ => "") (fun _ => "")
        sampleDoc emptyFs).2.exists_ rdfPath = true :=
  ⟨rfl, rfl, rfl⟩

/-- Claim C3 amended: for every document, requesting the graph format makes
`write_document` return an error naming the format and saying "not yet
implemented", and no serialized content is written — but the destination
file is created (truncated to empty) by writer acquisition before the error
is returned. -/
theorem C3_rdf_error_after_create (om : OutputManager) (doc : SPDX) (fs : FileSystem)
    (jsonEnc yamlEnc : SPDX → String)
    (hfmt : om.format = Format.Rdf)
    (hname : om.to_.fileName.isNone = false)
    (hdir : fs.isDir om.to_ = false)
    (hok : om.force = true ∨ fs.exists_ om.to_ = false) :
    om.write_document jsonEnc yamlEnc doc fs =
      (.error (Format.display Format.Rdf ++ " format not yet implemented"),
        fs.writeTo om.to_ []) ∧
    (fs.writeTo om.to_ []).content om.to_ = some [] := by
  have hcond : (!om.force && fs.exists_ om.to_) = false := by
    rcases hok with h | h <;> simp [h]
  refine ⟨?_, content_writeTo fs om.to_ []⟩
  simp [OutputManager.write_document, OutputManager.get_writer, FileSystem.create,
    hname, hdir, hfmt, hcond]

/-- Witness for the amended C3 at a concrete forced write of an empty
document to `out.rdf` on the empty filesystem. -/
theorem C3_rdf_witness :
    (OutputManager.new rdfPath true Format.Rdf).write_document (fun _ => "") (fun _ => "")
        sampleDoc emptyFs =
      (.error (Format.display Format.Rdf ++ " format not yet implemented"),
        emptyFs.writeTo rdfPath []) ∧
    (emptyFs.writeTo rdfPath []).content rdfPath = some [] :=
  C3_rdf_error_after_create (OutputManager.new rdfPath true Format.Rdf) sampleDoc emptyFs
    (fun _ => "") (fun _ => "") rfl rfl rfl (Or.inl rfl)

/-- Claim C4: with a valid file destination, `write_document` fails with an
"already exists" error and an unchanged filesystem exactly when the
destination exists and force is off; in the other three cases of the
(force, exists) table, writer acquisition proceeds, creating or truncating
the destination to an empty file. -/
theorem C4_overwrite_gate (om : OutputManager) (fs : FileSystem) (doc : SPDX)
    (jsonEnc yamlEnc : SPDX → String)
    (hname : om.to_.fileName.isNone = false)
    (hdir : fs.isDir om.to_ = false) :
    (om.force = false → fs.exists_ om.to_ = true →
      om.write_document jsonEnc yamlEnc doc fs =
        (.error ("output file already exists: " ++ om.to_.display), fs)) ∧
    ((om.force = true ∨ fs.exists_ om.to_ = false) →
      om.get_writer fs = .ok (fs.writeTo om.to_ []) ∧
      (fs.writeTo om.to_ []).content om.to_ = some []) := by
  constructor
  · intro hf he
    simp [OutputManager.write_document, OutputManager.get_writer, hname, hdir, hf, he]
  · intro hok
    have hcond : (!om.force && fs.exists_ om.to_) = false := by
      rcases hok with h | h <;> simp [h]
    exact ⟨by simp [OutputManager.get_writer, FileSystem.create, hcond, hdir],
           content_writeTo fs om.to_ []⟩

/-- Witness for C4: `a.bin` exists, so the unforced write fails with the
"already exists" error and leaves the filesystem unchanged, while the forced
manager acquires a writer that truncates `a.bin`. -/
theorem C4_witness :
    ((OutputManager.new samplePath false Format.KeyValue).write_document
        (fun _ => "") (fun _ => "") sampleDoc sampleFs =
      (.error ("output file already exists: " ++ samplePath.display), sampleFs)) ∧
    ((OutputManager.new samplePath true Format.KeyValue).get_writer sampleFs =
        .ok (sampleFs.writeTo samplePath []) ∧
      (sampleFs.writeTo samplePath []).content samplePath = some []) :=
  ⟨(C4_overwrite_gate (OutputManager.new samplePath false Format.KeyValue) sampleFs sampleDoc
      (fun _ => "") (fun _ => "") rfl rfl).1 rfl (by decide),
   (C4_overwrite_gate (OutputManager.new samplePath true Format.KeyValue) sampleFs sampleDoc
      (fun _ => "") (fun _ => "") rfl rfl).2 (Or.inl rfl)⟩

/-- Claim C5: a destination with no file-name component, or one that is an
existing directory, makes `write_document` fail before any writer is
acquired, returning the validation error with the filesystem unchanged. -/
theorem C5_path_validation (om : OutputManager) (fs : FileSystem) (doc : SPDX)
    (jsonEnc yamlEnc : SPDX → String) :
    (om.to_.fileName = none →
      om.write_document jsonEnc yamlEnc doc fs = (.error "missing output file name", fs)) ∧
    (om.to_.fileName.isNone = false → fs.isDir om.to_ = true →
      om.write_document jsonEnc yamlEnc doc fs = (.error "output can't be a directory", fs)) := by
  constructor
  · intro h
    simp [OutputManager.write_document, h]
  · intro hname hdir
    simp [OutputManager.write_document, hname, hdir]

/-- Witness for C5 at a path ending in `..` and at an existing directory. -/
theorem C5_witness :
    ((OutputManager.new noNamePath false Format.KeyValue).write_document
        (fun _ => "") (fun _ => "") sampleDoc emptyFs =
      (.error "missing output file name", emptyFs)) ∧
    ((OutputManager.new dirPath false Format.KeyValue).write_document
        (fun _ => "") (fun _ => "") sampleDoc dirFs =
      (.error "output can't be a directory", dirFs)) :=
  ⟨(C5_path_validation (OutputManager.new noNamePath false Format.KeyValue) emptyFs sampleDoc
      (fun _ => "") (fun _ => "")).1 rfl,
   (C5_path_validation (OutputManager.new dirPath false Format.KeyValue) dirFs sampleDoc
      (fun _ => "") (fun _ => "")).2 rfl (by decide)⟩

/-- Claim C6: the built package has spdx identifier `SPDXRef-<name>-<version>`
and exactly one external reference — package-manager category, type `purl`,
locator `pkg:cargo/<name>@<version>` — and the same metadata always yields
the same package. -/
theorem C6_package_identifier_and_purl (package : MetadataPackage) :
    (PackageInformation.from_metadata_package package).package_spdx_identifier =
      "SPDXRef-" ++ package.name ++ "-" ++ package.version ∧
    (PackageInformation.from_metadata_package package).external_reference =
      [{ reference_category := ExternalPackageReferenceCategory.PackageManager
         reference_type := "purl"
         reference_locator := "pkg:cargo/" ++ package.name ++ "@" ++ package.version
         reference_comment := none }] ∧
    ∀ q : MetadataPackage, q = package →
      PackageInformation.from_metadata_package q =
        PackageInformation.from_metadata_package package :=
  ⟨rfl, rfl, fun _ hq => hq ▸ rfl⟩

/-- Witness for C6 at the package `foo` version `1.0.0`. -/
theorem C6_witness :
    (PackageInformation.from_metadata_package samplePackage).package_spdx_identifier =
      "SPDXRef-foo-1.0.0" ∧
    (PackageInformation.from_metadata_package samplePackage).external_reference =
      [{ reference_category := ExternalPackageReferenceCategory.PackageManager
         reference_type := "purl"
         reference_locator := "pkg:cargo/foo@1.0.0"
         reference_comment := none }] ∧
    PackageInformation.from_metadata_package samplePackage =
      PackageInformation.from_metadata_package samplePackage := by
  obtain ⟨h1, h2, h3⟩ := C6_package_identifier_and_purl samplePackage
  exact ⟨h1.trans (by decide), h2.trans (by decide), h3 samplePackage rfl⟩

/-- Claim C7: the flat serializer emits exactly the fixed ordered field list
the spec describes — optional fields only when present, one `Creator` line
per creator in order — and every emitted line has the form `Key: Value`. -/
theorem C7_kv_field_order (doc : SPDX) :
    key_value.write [] doc = kvLinesSpec doc ∧
    ∀ line ∈ key_value.write [] doc, ∃ k v, k ∈ kvKeys ∧ line = k ++ ": " ++ v :=
  ⟨kv_write_eq_spec doc, fun line hl =>
    kvLinesSpec_mem doc line (by rwa [kv_write_eq_spec doc] at hl)⟩

/-- Witness for C7 at the sample document. -/
theorem C7_witness :
    key_value.write [] sampleDoc = kvLinesSpec sampleDoc ∧
    ∀ line ∈ key_value.write [] sampleDoc, ∃ k v, k ∈ kvKeys ∧ line = k ++ ": " ++ v :=
  C7_kv_field_order sampleDoc

/-- Claim C8: for every readable file, the checksum engine returns exactly
two records — the SHA1-tagged one with a 40-character lowercase-hex digest
and the SHA256-tagged one with a 64-character lowercase-hex digest — and the
same byte content always yields the same digests. -/
theorem C8_two_checksum_records (path : RPath) (fs : FileSystem) (bytes : List Nat)
    (hread : fs.content path = some bytes) :
    ∃ v1 v2,
      calculate_checksums path fs =
        .ok [{ algorithm := Algorithm.SHA1, value := v1 },
             { algorithm := Algorithm.SHA256, value := v2 }] ∧
      v1.length = 40 ∧ (∀ c ∈ v1.data, c ∈ hexChars) ∧
      v2.length = 64 ∧ (∀ c ∈ v2.data, c ∈ hexChars) ∧
      ∀ path2 fs2, fs2.content path2 = some bytes →
        calculate_checksums path2 fs2 =
          .ok [{ algorithm := Algorithm.SHA1, value := v1 },
               { algorithm := Algorithm.SHA256, value := v2 }] := by
  refine ⟨hexEncode (sha1Digest []), hexEncode (sha256Digest bytes), ?_, ?_, ?_, ?_, ?_, ?_⟩
  · simp [calculate_checksums, hread, Sha1Hasher.new, Sha1Hasher.finalize,
      Sha256Hasher.new, Sha256Hasher.update, Sha256Hasher.finalize]
  · rw [hexEncode_length, sha1Digest_length]
  · exact hexEncode_mem _
  · rw [hexEncode_length, sha256Digest_length]
  · exact hexEncode_mem _
  · intro path2 fs2 h2
    simp [calculate_checksums, h2, Sha1Hasher.new, Sha1Hasher.finalize,
      Sha256Hasher.new, Sha256Hasher.update, Sha256Hasher.finalize]

/-- Witness for C8 at the one-byte file `a.bin`. -/
theorem C8_witness :
    sampleFs.content samplePath = some [0x61] ∧
    ∃ v1 v2,
      calculate_checksums samplePath sampleFs =
        .ok [{ algorithm := Algorithm.SHA1, value := v1 },
             { algorithm := Algorithm.SHA256, value := v2 }] ∧
      v1.length = 40 ∧ (∀ c ∈ v1.data, c ∈ hexChars) ∧
      v2.length = 64 ∧ (∀ c ∈ v2.data, c ∈ hexChars) ∧
      ∀ path2 fs2, fs2.content path2 = some [0x61] →
        calculate_checksums path2 fs2 =
          .ok [{ algorithm := Algorithm.SHA1, value := v1 },
               { algorithm := Algorithm.SHA256, value := v2 }] :=
  ⟨by decide, C8_two_checksum_records samplePath sampleFs [0x61] (by decide)⟩

/-- Claim C9: whatever the identity lookup returns, building creation info
succeeds; the tool creator is always the last entry, the creators list is
never empty, and on lookup failure the person creator is simply omitted. -/
theorem C9_tool_creator_always (user : Except String GitUser) (now : String) :
    ∃ ci, get_creation_info user now = .ok ci ∧
      ci.creators ≠ [] ∧
      ci.creators.getLast? = some "Tool: cargo-spdx 0.1.0" ∧
      ∀ e, user = .error e → ci.creators = ["Tool: cargo-spdx 0.1.0"] := by
  cases user with
  | ok u =>
      refine ⟨_, rfl, ?_, ?_, ?_⟩
      · simp [get_creation_info]
      · simp [get_creation_info]
      · intro e he
        exact absurd he (by simp)
  | error s =>
      refine ⟨_, rfl, ?_, ?_, ?_⟩ <;> simp [get_creation_info]

/-- Witness for C9 at a failed identity lookup. -/
theorem C9_witness :
    ∃ ci, get_creation_info (.error "no user identity") "2022-01-01T00:00:00Z" = .ok ci ∧
      ci.creators ≠ [] ∧
      ci.creators.getLast? = some "Tool: cargo-spdx 0.1.0" ∧
      ∀ e, (Except.error "no user identity" : Except String GitUser) = .error e →
        ci.creators = ["Tool: cargo-spdx 0.1.0"] :=
  C9_tool_creator_always (.error "no user identity") "2022-01-01T00:00:00Z"

/-- Claim C10: building a File record requires the path to have a file-name
component — `try_from_binary` panics (modelled as `none`) when it is absent,
and only under that precondition does it return a non-panicking result. -/
theorem C10_missing_file_name_unwrap (path : RPath) (fs : FileSystem) :
    (path.fileName = none → FileInformation.try_from_binary path fs = none) ∧
    ∀ f, path.fileName = some f → ∃ r, FileInformation.try_from_binary path fs = some r := by
  constructor
  · intro h
    simp [FileInformation.try_from_binary, h]
  · intro f h
    unfold FileInformation.try_from_binary
    rw [h]
    exact ⟨_, rfl⟩

/-- Witness for C10: the path `..` panics the builder; `a.bin` does not. -/
theorem C10_witness :
    FileInformation.try_from_binary noNamePath emptyFs = none ∧
    ∃ r, FileInformation.try_from_binary samplePath sampleFs = some r :=
  ⟨(C10_missing_file_name_unwrap noNamePath emptyFs).1 rfl,
   (C10_missing_file_name_unwrap samplePath sampleFs).2 "a.bin" rfl⟩

end CargoSpdx
